import Mathlib

/-!
Verification development for the moorfields audio-recognition assessment app.

The definitions below are a shallow embedding of the TypeScript sources:
* `src/lib/placeholder-images.ts` — the stimulus catalog;
* `src/lib/constants.ts`          — timing constants and enums;
* `src/lib/salzburg-report.ts`    — the scoring engine;
* `src/hooks/use-phase-management.ts` / `src/components/echoscribe-app.tsx`
  — skip and advancement logic of the phase state machine;
* the audio-recording hook (`useAudioRecording`) — session-token lifecycle.

Machine numbers are embedded as exact rationals (`ℚ`); timestamps as `ℕ`.
`Date.now()` is embedded as an explicit `now : ℕ` parameter wherever the
source calls it.  The one floating-point operation with no exact rational
counterpart, `Math.sqrt`, is handled relationally: the report stores the
exact rational `variance`, and the real-valued `standardDeviation` /
`consistencyScore` pair the source derives from it is characterized by the
proposition `ReportConsistency` below.
-/

namespace Moorfields

/-- `EyeTestingPhase` enum from `src/lib/constants.ts`.  The TypeScript
`PerformanceMetric.eyeTestingPhase` field is declared `string`, but every
producer in the app (trial completion, phase skip, report backfill) writes
one of these three enum values, matching the spec's data model. -/
inductive EyeTestingPhase where
  | leftEye
  | rightEye
  | bothEyes
deriving DecidableEq, Repr, Fintype

/-- `PerformanceMetric` from `src/lib/salzburg-report.ts` (the TrialRecord of
the spec).  `responseTime?: number` is embedded as `Option ℚ`. -/
structure PerformanceMetric where
  imageIndex : ℕ
  imageName : String
  startTime : ℕ
  responseTime : Option ℚ
  isCorrect : Bool
  transcribedText : String
  blurClearTime : ℕ
  eyeTestingPhase : EyeTestingPhase
  wasSkipped : Bool
deriving DecidableEq, Repr

/-- `ImagePlaceholder` from `src/lib/placeholder-images.ts`. -/
structure ImagePlaceholder where
  id : String
  description : String
  imageUrl : String
  imageHint : String
deriving DecidableEq, Repr, Inhabited

/-- `imageFiles` from `src/lib/placeholder-images.ts`. -/
def imageFiles : List String :=
  ["cat.png", "cow.png", "crocodile.png", "dog.png", "horse.png", "giraffe.png",
   "lion.png", "monkey.png", "mouse.png", "parrot.png", "rabbit.png", "sheep.png",
   "tiger.png"]

/-- `PlaceHolderImages` from `src/lib/placeholder-images.ts`: built from the
filenames, `description` is the filename without its `.png` suffix. -/
def PlaceHolderImages : List ImagePlaceholder :=
  (imageFiles.enum).map fun p =>
    let nameWithoutExtension := p.2.dropRight 4
    { id := toString (p.1 + 1)
      description := nameWithoutExtension
      imageUrl := "/images/" ++ p.2
      imageHint := nameWithoutExtension ++ " drawing" }

/-- `RECORDING_DURATION` (ms) from `src/lib/constants.ts`. -/
def RECORDING_DURATION : ℚ := 5000

/-- `IDEAL_RESPONSE_TIME` (ms) from `src/lib/constants.ts`. -/
def IDEAL_RESPONSE_TIME : ℚ := 2500

/-- `MAX_ACCEPTABLE_TIME` (ms) from `src/lib/constants.ts`. -/
def MAX_ACCEPTABLE_TIME : ℚ := 5000

/-- `TOTAL_EYE_PHASES` from `src/lib/constants.ts`. -/
def TOTAL_EYE_PHASES : ℕ := 3

/-- `ACTUAL_IMAGES_COUNT = PlaceHolderImages.length` from
`src/lib/salzburg-report.ts` (equals 13). -/
def ACTUAL_IMAGES_COUNT : ℕ := PlaceHolderImages.length

/-- `EyeResults` from `src/lib/salzburg-report.ts`. -/
structure EyeResults where
  correctResponses : ℕ
  totalTests : ℕ
  skipped : ℕ
deriving DecidableEq, Repr

/-- `SalzburgReport` from `src/lib/salzburg-report.ts`.  The source fields
`standardDeviation` and `consistencyScore` are real numbers produced with
`Math.sqrt`; in this exact embedding the report stores the rational
`variance` computed by `calculateConsistencyMetrics` before the square root
(0 when there are no completed metrics), and the real-valued pair is
characterized by `ReportConsistency`.  The per-eye results are always set by
the source, so they are embedded non-optional. -/
structure SalzburgReport where
  totalImages : ℕ
  correctResponses : ℕ
  completedTests : ℕ
  averageResponseTime : ℚ
  visualAcuityScore : ℚ
  recognitionAccuracy : ℚ
  responseSpeedScore : ℚ
  overallScore : ℚ
  recommendations : List String
  visualAcuityLevel : String
  clinicalInterpretation : String
  variance : ℚ
  shouldVisitOphthalmologist : Bool
  skippedTests : ℕ
  leftEyeResults : EyeResults
  rightEyeResults : EyeResults
  bothEyesResults : EyeResults
deriving DecidableEq, Repr

/-- The synthesized metric pushed by `ensureAllPhasesAccountedFor` for a
missing test (`startTime: Date.now()` is the explicit `now` argument). -/
def missingMetric (now : ℕ) (phase : EyeTestingPhase) (i : ℕ) : PerformanceMetric :=
  { imageIndex := i
    imageName := (PlaceHolderImages.getD i default).description
    startTime := now
    responseTime := some 0
    isCorrect := false
    transcribedText := "Phase not completed"
    blurClearTime := 5000
    eyeTestingPhase := phase
    wasSkipped := true }

/-- One iteration of the `phases.forEach` loop of
`ensureAllPhasesAccountedFor`: count this phase's metrics in the accumulated
result and, if fewer than `ACTUAL_IMAGES_COUNT`, append synthesized skipped
metrics for the missing indices (`for i = phaseMetrics.length; i < ACTUAL_IMAGES_COUNT`). -/
def padPhase (now : ℕ) (phase : EyeTestingPhase) (result : List PerformanceMetric) :
    List PerformanceMetric :=
  let phaseMetrics := result.filter fun m => decide (m.eyeTestingPhase = phase)
  if phaseMetrics.length < ACTUAL_IMAGES_COUNT then
    result ++ (List.range' phaseMetrics.length (ACTUAL_IMAGES_COUNT - phaseMetrics.length)).map
      (missingMetric now phase)
  else result

/-- `ensureAllPhasesAccountedFor` from `src/lib/salzburg-report.ts`: the
`forEach` over `['left-eye', 'right-eye', 'both-eyes']` in order. -/
def ensureAllPhasesAccountedFor (now : ℕ) (metrics : List PerformanceMetric) :
    List PerformanceMetric :=
  padPhase now .bothEyes (padPhase now .rightEye (padPhase now .leftEye metrics))

/-- `calculateAverageResponseTime` from `src/lib/salzburg-report.ts`:
`reduce((sum, m) => sum + (m.responseTime || 0), 0) / length`, 0 on empty. -/
def calculateAverageResponseTime (completedMetrics : List PerformanceMetric) : ℚ :=
  if completedMetrics.isEmpty then 0
  else ((completedMetrics.map fun m => m.responseTime.getD 0).sum) / completedMetrics.length

/-- `calculateResponseSpeedScore` from `src/lib/salzburg-report.ts`. -/
def calculateResponseSpeedScore (avgResponseTime : ℚ) : ℚ :=
  if avgResponseTime ≤ IDEAL_RESPONSE_TIME then 100
  else
    let penalty := min (((avgResponseTime - IDEAL_RESPONSE_TIME) /
      (MAX_ACCEPTABLE_TIME - IDEAL_RESPONSE_TIME)) * 50) 50
    max 50 (100 - penalty)

/-- `calculateEyeResults` from `src/lib/salzburg-report.ts`.  The source's
`Math.max(0, ACTUAL_IMAGES_COUNT - phaseMetrics.length)` is truncated `ℕ`
subtraction here, which is the same function. -/
def calculateEyeResults (phaseMetrics : List PerformanceMetric) : EyeResults :=
  let completed := phaseMetrics.filter fun m => !m.wasSkipped
  let skipped := phaseMetrics.filter fun m => m.wasSkipped
  let correct := completed.filter fun m => m.isCorrect
  { correctResponses := correct.length
    totalTests := ACTUAL_IMAGES_COUNT
    skipped := skipped.length + (ACTUAL_IMAGES_COUNT - phaseMetrics.length) }

/-- The `variance` computed inside `calculateConsistencyMetrics` of
`src/lib/salzburg-report.ts` (0 when there are no completed metrics, matching
the source's early return of `standardDeviation = 0 = Math.sqrt 0`). -/
def calculateVariance (completedMetrics : List PerformanceMetric) (avgResponseTime : ℚ) : ℚ :=
  if completedMetrics.isEmpty then 0
  else ((completedMetrics.map fun m => (m.responseTime.getD 0 - avgResponseTime) ^ 2).sum) /
    completedMetrics.length

/-- `getVisualAcuityAssessment` from `src/lib/salzburg-report.ts`; returns
(visualAcuityLevel, clinicalInterpretation). -/
def getVisualAcuityAssessment (recognitionAccuracy responseSpeedScore : ℚ) : String × String :=
  if 90 ≤ recognitionAccuracy ∧ 80 ≤ responseSpeedScore then
    ("Excellent", "Superior visual processing and reading recognition abilities")
  else if 80 ≤ recognitionAccuracy ∧ 70 ≤ responseSpeedScore then
    ("Good", "Good visual processing with adequate reading speed")
  else if 70 ≤ recognitionAccuracy ∨ 60 ≤ responseSpeedScore then
    ("Borderline", "Some difficulty with visual processing or reading speed")
  else
    ("Below Normal", "Significant difficulties with visual word recognition")

/-- `generateRecommendations` from `src/lib/salzburg-report.ts`.  The source
tests `stdDev > 1500` where `stdDev = Math.sqrt variance`; since the variance
is a nonnegative exact rational, that test is exactly `variance > 1500 ^ 2`,
which keeps the definition computable. -/
def generateRecommendations (recognitionAccuracy avgResponseTime variance : ℚ)
    (hasSkippedTests : Bool) : List String :=
  let recommendations :=
    (if hasSkippedTests then
      ["⚠️ IMPORTANT: Tests were skipped - Recommend immediate ophthalmologist consultation",
       "Skipped tests may indicate visual discomfort or difficulty"]
     else []) ++
    (if recognitionAccuracy < 70 then
      ["Recommend comprehensive eye examination and reading assessment",
       "Consider evaluation for visual processing disorders"]
     else []) ++
    (if 4000 < avgResponseTime then
      ["Slow reading recognition may indicate processing speed deficits",
       "Consider cognitive-perceptual evaluation"]
     else []) ++
    (if 1500 ^ 2 < variance then
      ["Inconsistent response times suggest attention or fatigue factors"]
     else []) ++
    (if 90 ≤ recognitionAccuracy ∧ avgResponseTime ≤ IDEAL_RESPONSE_TIME ∧ !hasSkippedTests then
      ["Excellent visual-verbal processing abilities",
       "Reading skills appear well-developed"]
     else []) ++
    (if recognitionAccuracy < 50 then
      ["Significant reading difficulties detected - recommend immediate professional evaluation"]
     else [])
  if recommendations.isEmpty then
    ["Performance within normal limits for visual word recognition"]
  else recommendations

/-- Body of `generateSalzburgReport` from `src/lib/salzburg-report.ts` for a
non-empty history (the source inlines this after its empty-history guard). -/
def buildReport (now : ℕ) (performanceMetrics : List PerformanceMetric) : SalzburgReport :=
  let completeMetrics := ensureAllPhasesAccountedFor now performanceMetrics
  let completedMetrics := completeMetrics.filter fun m => !m.wasSkipped
  let skippedMetrics := completeMetrics.filter fun m => m.wasSkipped
  let leftEye := completeMetrics.filter fun m => decide (m.eyeTestingPhase = .leftEye)
  let rightEye := completeMetrics.filter fun m => decide (m.eyeTestingPhase = .rightEye)
  let bothEyes := completeMetrics.filter fun m => decide (m.eyeTestingPhase = .bothEyes)
  let expectedTotalTests := ACTUAL_IMAGES_COUNT * TOTAL_EYE_PHASES
  let correctResponses := (completedMetrics.filter fun m => m.isCorrect).length
  let averageResponseTime := calculateAverageResponseTime completedMetrics
  let recognitionAccuracy :=
    if 0 < completedMetrics.length then
      ((correctResponses : ℚ) / (completedMetrics.length : ℚ)) * 100
    else 0
  let responseSpeedScore := calculateResponseSpeedScore averageResponseTime
  let processingEfficiency := (recognitionAccuracy / 100) * (responseSpeedScore / 100) * 100
  let readingComprehensionScore := recognitionAccuracy * (7 / 10) + responseSpeedScore * (3 / 10)
  let assessment := getVisualAcuityAssessment recognitionAccuracy responseSpeedScore
  let variance := calculateVariance completedMetrics averageResponseTime
  let shouldVisitOphthalmologist : Bool := decide (0 < skippedMetrics.length)
  let recommendations := generateRecommendations recognitionAccuracy averageResponseTime
    variance shouldVisitOphthalmologist
  { totalImages := expectedTotalTests
    correctResponses := correctResponses
    completedTests := completedMetrics.length
    averageResponseTime := averageResponseTime
    visualAcuityScore := processingEfficiency
    recognitionAccuracy := recognitionAccuracy
    responseSpeedScore := responseSpeedScore
    overallScore := readingComprehensionScore
    recommendations := recommendations
    visualAcuityLevel := assessment.1
    clinicalInterpretation := assessment.2
    variance := variance
    shouldVisitOphthalmologist := shouldVisitOphthalmologist
    skippedTests := skippedMetrics.length
    leftEyeResults := calculateEyeResults leftEye
    rightEyeResults := calculateEyeResults rightEye
    bothEyesResults := calculateEyeResults bothEyes }

/-- `generateSalzburgReport` from `src/lib/salzburg-report.ts`: returns
`null` (here `none`) on an empty history, otherwise the full report. -/
def generateSalzburgReport (now : ℕ) (performanceMetrics : List PerformanceMetric) :
    Option SalzburgReport :=
  if performanceMetrics.isEmpty then none
  else some (buildReport now performanceMetrics)

/-- Characterization of the real-valued `standardDeviation` / `consistencyScore`
pair that `calculateConsistencyMetrics` produces for a report: on an empty
completed set the source returns `{consistencyScore: 0, standardDeviation: 0}`;
otherwise `standardDeviation = Math.sqrt variance` and
`consistencyScore = Math.max(0, 100 - standardDeviation / 100)`. -/
def ReportConsistency (r : SalzburgReport) (standardDeviation consistencyScore : ℝ) : Prop :=
  if r.completedTests = 0 then standardDeviation = 0 ∧ consistencyScore = 0
  else standardDeviation = Real.sqrt (r.variance : ℝ) ∧
    consistencyScore = max 0 (100 - standardDeviation / 100)

/-- Population variance of a list of rationals around its mean (spec §4.4:
"population standard deviation of completed response times around the mean"
is the square root of this). -/
def popVariance (ts : List ℚ) : ℚ :=
  if ts.isEmpty then 0
  else ((ts.map fun t => (t - ts.sum / ts.length) ^ 2).sum) / ts.length

/-- The skipped metric created by `skipPhase` (`use-phase-management.ts`) and
`skipToNextPhase` (`echoscribe-app.tsx`) for one remaining stimulus index
(`startTime: Date.now()` is the explicit `now` argument). -/
def skippedMetric (now : ℕ) (phase : EyeTestingPhase) (i : ℕ) : PerformanceMetric :=
  { imageIndex := i
    imageName := (PlaceHolderImages.getD i default).description
    startTime := now
    responseTime := some 0
    isCorrect := false
    transcribedText := "Phase Skipped"
    blurClearTime := 5000
    eyeTestingPhase := phase
    wasSkipped := true }

/-- The `skippedMetrics` array built by `skipPhase` / `skipToNextPhase`:
one record per stimulus index in `[phaseImageIndex, PlaceHolderImages.length)`. -/
def skipPhaseMetrics (now : ℕ) (currentPhase : EyeTestingPhase) (phaseImageIndex : ℕ) :
    List PerformanceMetric :=
  (List.range' phaseImageIndex (PlaceHolderImages.length - phaseImageIndex)).map
    (skippedMetric now currentPhase)

/-- The history update performed by `skipPhase` / `skipToNextPhase`:
`performanceMetrics = [...performanceMetrics, ...skippedMetrics]`. -/
def skipPhase (now : ℕ) (currentPhase : EyeTestingPhase) (phaseImageIndex : ℕ)
    (performanceMetrics : List PerformanceMetric) : List PerformanceMetric :=
  performanceMetrics ++ skipPhaseMetrics now currentPhase phaseImageIndex

/-- Outcome of the advancement step (`advanceToNextImage` in
`use-phase-management.ts`, `advanceToNextImageWithMetrics` in
`echoscribe-app.tsx`): either the phase is complete and `moveToNextPhase()`
fires, or the next stimulus index is presented. -/
inductive AdvanceAction where
  | moveToNextPhase
  | nextImage (idx : ℕ)
deriving DecidableEq, Repr

/-- `advanceToNextImage` / `advanceToNextImageWithMetrics`: the next index is
the count of records already present for the current phase; at catalog length
the phase is complete. -/
def advanceToNextImage (currentPhase : EyeTestingPhase)
    (metrics : List PerformanceMetric) : AdvanceAction :=
  let currentPhaseMetrics := metrics.filter fun m => decide (m.eyeTestingPhase = currentPhase)
  let nextPhaseImageIndex := currentPhaseMetrics.length
  let totalImagesPerPhase := PlaceHolderImages.length
  if totalImagesPerPhase ≤ nextPhaseImageIndex then .moveToNextPhase
  else .nextImage (nextPhaseImageIndex % totalImagesPerPhase)

/-- Count of history records tagged with a phase (the
`metrics.filter(m => m.eyeTestingPhase === phase).length` idiom used by both
the advancement step and the report backfill). -/
def countPhase (phase : EyeTestingPhase) (metrics : List PerformanceMetric) : ℕ :=
  (metrics.filter fun m => decide (m.eyeTestingPhase = phase)).length

/-!  Capture controller (`useAudioRecording`): session-token lifecycle.

The hook keeps `sessionIdRef` (the token) and `isActiveRecordingRef`; every
delayed callback captures `currentSessionId` at `startRecording` time and
re-checks it against the ref when it fires.  The embedding models the two
refs as `RecorderState` and each delayed callback as a pure function from
the captured token and the state at firing time to the list of user-visible
callback invocations it performs. -/

/-- The controller's mutable refs: `sessionIdRef` and `isActiveRecordingRef`. -/
structure RecorderState where
  sessionId : ℕ
  isActive : Bool
deriving DecidableEq, Repr

/-- User-visible callback invocations of the capture controller:
`onProgressUpdate`, `onRecordingComplete` (with the buffered sample size) and
`onError`. -/
inductive CaptureEvent where
  | progressUpdate (pct : ℚ)
  | recordingComplete (blobSize : ℕ)
  | errorEvent (msg : String)
deriving DecidableEq, Repr

/-- `cleanup` from `useAudioRecording`: clears `isActiveRecordingRef` and
increments the session id to invalidate old callbacks (timer clearing and
device stop have no user-visible callback effect). -/
def cleanup (s : RecorderState) : RecorderState :=
  { sessionId := s.sessionId + 1, isActive := false }

/-- The session bookkeeping of `startRecording`: `cleanup()` then
`isActiveRecordingRef.current = true`; returns the new state together with
the captured `currentSessionId`. -/
def startRecordingSession (s : RecorderState) : RecorderState × ℕ :=
  let s1 := { cleanup s with isActive := true }
  (s1, s1.sessionId)

/-- The progress `setInterval` tick: a no-op unless the recording is still
active and the captured token matches, otherwise reports
`min(elapsed / RECORDING_DURATION × 100, 100)`. -/
def progressTickEvents (token : ℕ) (s : RecorderState) (elapsed : ℚ) : List CaptureEvent :=
  if !s.isActive ∨ token ≠ s.sessionId then []
  else [.progressUpdate (min (elapsed / RECORDING_DURATION * 100) 100)]

/-- The forced-stop `setTimeout` after `RECORDING_DURATION`: returns whether
`mediaRecorder.stop()` is issued (recorder present and recording, session
active, token matches) and the callback invocations it performs (the final
`onProgressUpdate(100)`, guarded by active + token). -/
def forcedStopTimeout (token : ℕ) (s : RecorderState) (recorderRecording : Bool) :
    Bool × List CaptureEvent :=
  ( recorderRecording && s.isActive && decide (token = s.sessionId)
  , if s.isActive ∧ token = s.sessionId then [.progressUpdate 100] else [] )

/-- Callback invocations of `recorder.onstop`: `onRecordingComplete` fires
only when the captured token still matches, the session is active, and the
buffered blob is non-empty (an empty blob only logs a warning); `onError` is
never invoked from this handler. -/
def onstopEvents (token : ℕ) (s : RecorderState) (blobSize : ℕ) : List CaptureEvent :=
  if token = s.sessionId ∧ s.isActive then
    if 0 < blobSize then [.recordingComplete blobSize] else []
  else []

/-- The full `recorder.onstop` handler: the guarded callback invocations,
then the unconditional track release and `cleanup()` returning the
controller to idle. -/
def onstopRun (token : ℕ) (s : RecorderState) (blobSize : ℕ) :
    List CaptureEvent × RecorderState :=
  (onstopEvents token s blobSize, cleanup s)

/-- The `catch` branch of `startRecording` (device acquisition failure):
`onError` fires once and the controller is cleaned up. -/
def startRecordingFailure (s : RecorderState) (msg : String) :
    List CaptureEvent × RecorderState :=
  ([.errorEvent msg], cleanup s)

/-- The block of synthesized metrics one `padPhase` step appends when the
phase so far holds `c` records (empty when `c ≥ ACTUAL_IMAGES_COUNT`). -/
def padBlock (now : ℕ) (phase : EyeTestingPhase) (c : ℕ) : List PerformanceMetric :=
  (List.range' c (ACTUAL_IMAGES_COUNT - c)).map (missingMetric now phase)

/-- Concrete completed trial record, used as witness input. -/
def sampleTrial (phase : EyeTestingPhase) (idx : ℕ) (rt : ℚ) : PerformanceMetric :=
  { imageIndex := idx
    imageName := "cat"
    startTime := 0
    responseTime := some rt
    isCorrect := true
    transcribedText := "cat"
    blurClearTime := 5000
    eyeTestingPhase := phase
    wasSkipped := false }

/-- Concrete skipped trial record, used as witness input. -/
def sampleSkip (phase : EyeTestingPhase) (idx : ℕ) : PerformanceMetric :=
  { imageIndex := idx
    imageName := "cat"
    startTime := 0
    responseTime := some 0
    isCorrect := false
    transcribedText := "Phase Skipped"
    blurClearTime := 5000
    eyeTestingPhase := phase
    wasSkipped := true }

/-- Concrete history: a single skipped record (a session skipped at its very
first trial and then abandoned). -/
def hist0 : List PerformanceMetric := [sampleSkip .leftEye 0]

/-- Concrete history: a single completed record. -/
def hist1 : List PerformanceMetric := [sampleTrial .leftEye 0 2000]

/-- Concrete history: two completed records in the left-eye phase. -/
def hist2 : List PerformanceMetric :=
  [sampleTrial .leftEye 0 2000, sampleTrial .leftEye 1 2500]

/-!  Infrastructure lemmas about the report backfill. -/

theorem actual_images_count_eq : ACTUAL_IMAGES_COUNT = 13 := by
  decide

theorem padPhase_eq (now : ℕ) (p : EyeTestingPhase) (l : List PerformanceMetric) :
    padPhase now p l = l ++ padBlock now p (countPhase p l) := by
  unfold padPhase padBlock countPhase
  by_cases h : (l.filter fun m => decide (m.eyeTestingPhase = p)).length < ACTUAL_IMAGES_COUNT
  · simp [h]
  · simp [h, Nat.sub_eq_zero_of_le (Nat.le_of_not_lt h)]

theorem countPhase_append (q : EyeTestingPhase) (l₁ l₂ : List PerformanceMetric) :
    countPhase q (l₁ ++ l₂) = countPhase q l₁ + countPhase q l₂ := by
  simp [countPhase, List.filter_append]

theorem mem_padBlock {m : PerformanceMetric} {now : ℕ} {p : EyeTestingPhase} {c : ℕ}
    (hm : m ∈ padBlock now p c) :
    m.wasSkipped = true ∧ m.transcribedText = "Phase not completed" ∧
    m.eyeTestingPhase = p ∧ m.isCorrect = false ∧ m.responseTime = some 0 := by
  obtain ⟨i, _, rfl⟩ := List.mem_map.mp hm
  exact ⟨rfl, rfl, rfl, rfl, rfl⟩

theorem length_padBlock (now : ℕ) (p : EyeTestingPhase) (c : ℕ) :
    (padBlock now p c).length = ACTUAL_IMAGES_COUNT - c := by
  simp [padBlock]

theorem countPhase_map_missing (q p : EyeTestingPhase) (now : ℕ) (l : List ℕ) :
    countPhase q (l.map (missingMetric now p)) = if q = p then l.length else 0 := by
  unfold countPhase
  induction l with
  | nil => simp
  | cons a t ih =>
    by_cases h : q = p
    · subst h
      simp only [List.map_cons, List.filter_cons, List.length_cons] at *
      simp [missingMetric, ih]
    · simp only [List.map_cons, List.filter_cons, List.length_cons] at *
      simp [missingMetric, Ne.symm h, h, ih]

theorem countPhase_padBlock (q p : EyeTestingPhase) (now c : ℕ) :
    countPhase q (padBlock now p c) =
      if q = p then ACTUAL_IMAGES_COUNT - c else 0 := by
  rw [padBlock, countPhase_map_missing]
  simp

theorem filter_not_skip_padBlock (now : ℕ) (p : EyeTestingPhase) (c : ℕ) :
    (padBlock now p c).filter (fun m => !m.wasSkipped) = [] := by
  unfold padBlock
  generalize List.range' c (ACTUAL_IMAGES_COUNT - c) = l
  induction l with
  | nil => simp
  | cons a t ih => simpa [missingMetric] using ih

theorem filter_skip_padBlock (now : ℕ) (p : EyeTestingPhase) (c : ℕ) :
    (padBlock now p c).filter (fun m => m.wasSkipped) = padBlock now p c := by
  unfold padBlock
  generalize List.range' c (ACTUAL_IMAGES_COUNT - c) = l
  induction l with
  | nil => simp
  | cons a t ih => simpa [missingMetric] using ih

theorem filter_phase_padBlock (q p : EyeTestingPhase) (now c : ℕ) :
    (padBlock now p c).filter (fun m => decide (m.eyeTestingPhase = q)) =
      if q = p then padBlock now p c else [] := by
  unfold padBlock
  generalize List.range' c (ACTUAL_IMAGES_COUNT - c) = l
  induction l with
  | nil => simp
  | cons a t ih =>
    by_cases h : q = p
    · subst h
      simpa [missingMetric] using ih
    · simpa [missingMetric, Ne.symm h, h] using ih

theorem ensure_eq (now : ℕ) (h : List PerformanceMetric) :
    ensureAllPhasesAccountedFor now h =
      ((h ++ padBlock now .leftEye (countPhase .leftEye h))
        ++ padBlock now .rightEye (countPhase .rightEye h))
        ++ padBlock now .bothEyes (countPhase .bothEyes h) := by
  unfold ensureAllPhasesAccountedFor
  rw [padPhase_eq, padPhase_eq, padPhase_eq, countPhase_append, countPhase_padBlock,
    countPhase_append, countPhase_append, countPhase_padBlock, countPhase_padBlock]
  simp

theorem completed_ensure (now : ℕ) (h : List PerformanceMetric) :
    (ensureAllPhasesAccountedFor now h).filter (fun m => !m.wasSkipped) =
      h.filter (fun m => !m.wasSkipped) := by
  rw [ensure_eq]
  simp [List.filter_append, filter_not_skip_padBlock]

theorem skipped_ensure (now : ℕ) (h : List PerformanceMetric) :
    (ensureAllPhasesAccountedFor now h).filter (fun m => m.wasSkipped) =
      ((h.filter (fun m => m.wasSkipped)
        ++ padBlock now .leftEye (countPhase .leftEye h))
        ++ padBlock now .rightEye (countPhase .rightEye h))
        ++ padBlock now .bothEyes (countPhase .bothEyes h) := by
  rw [ensure_eq]
  simp [List.filter_append, filter_skip_padBlock]

theorem skipped_ensure_length (now : ℕ) (h : List PerformanceMetric) :
    ((ensureAllPhasesAccountedFor now h).filter (fun m => m.wasSkipped)).length =
      (h.filter (fun m => m.wasSkipped)).length
        + (ACTUAL_IMAGES_COUNT - countPhase .leftEye h)
        + (ACTUAL_IMAGES_COUNT - countPhase .rightEye h)
        + (ACTUAL_IMAGES_COUNT - countPhase .bothEyes h) := by
  rw [skipped_ensure]
  simp [length_padBlock]
  omega

theorem phase_filter_ensure (now : ℕ) (p : EyeTestingPhase) (h : List PerformanceMetric) :
    (ensureAllPhasesAccountedFor now h).filter (fun m => decide (m.eyeTestingPhase = p)) =
      h.filter (fun m => decide (m.eyeTestingPhase = p)) ++ padBlock now p (countPhase p h) := by
  rw [ensure_eq]
  cases p <;>
    simp [List.filter_append, filter_phase_padBlock]

theorem length_eq_sum_countPhase (h : List PerformanceMetric) :
    h.length = countPhase .leftEye h + countPhase .rightEye h + countPhase .bothEyes h := by
  induction h with
  | nil => simp [countPhase]
  | cons a t ih =>
    unfold countPhase at *
    cases hph : a.eyeTestingPhase <;> simp [List.filter_cons, hph, ih] <;> omega

theorem filter_skip_partition_length (l : List PerformanceMetric) :
    (l.filter (fun m => !m.wasSkipped)).length + (l.filter (fun m => m.wasSkipped)).length
      = l.length := by
  induction l with
  | nil => simp
  | cons a t ih =>
    cases hs : a.wasSkipped <;> simp [List.filter_cons, hs] <;> omega

theorem filter_not_skip_eq_nil_of_all {h : List PerformanceMetric}
    (hall : ∀ m ∈ h, m.wasSkipped = true) :
    h.filter (fun m => !m.wasSkipped) = [] := by
  induction h with
  | nil => simp
  | cons a t ih =>
    have ha := hall a (List.mem_cons_self a t)
    simp [List.filter_cons, ha, ih fun m hm => hall m (List.mem_cons_of_mem a hm)]

theorem filter_skip_eq_nil_of_none {h : List PerformanceMetric}
    (hnone : ∀ m ∈ h, m.wasSkipped = false) :
    h.filter (fun m => m.wasSkipped) = [] := by
  induction h with
  | nil => simp
  | cons a t ih =>
    have ha := hnone a (List.mem_cons_self a t)
    simp [List.filter_cons, ha, ih fun m hm => hnone m (List.mem_cons_of_mem a hm)]

/-!  Claim theorems. -/

/-- C6: the response speed score is 100 for every average response time of at
most 2500 ms, equals `max(50, 100 − min(50, (avg − 2500)/(5000 − 2500) × 50))`
for every average above 2500 ms, and in particular yields 100 at exactly
2500 ms and 50 at exactly 5000 ms. -/
theorem c6_response_speed_score :
    (∀ avg : ℚ, avg ≤ 2500 → calculateResponseSpeedScore avg = 100) ∧
    (∀ avg : ℚ, 2500 < avg →
      calculateResponseSpeedScore avg =
        max 50 (100 - min 50 ((avg - 2500) / (5000 - 2500) * 50))) ∧
    calculateResponseSpeedScore 2500 = 100 ∧
    calculateResponseSpeedScore 5000 = 50 := by
  refine ⟨?_, ?_, ?_, ?_⟩
  · intro avg hle
    simp [calculateResponseSpeedScore, IDEAL_RESPONSE_TIME, hle]
  · intro avg hgt
    rw [calculateResponseSpeedScore, if_neg (by rw [IDEAL_RESPONSE_TIME]; exact not_le.mpr hgt)]
    rw [IDEAL_RESPONSE_TIME, MAX_ACCEPTABLE_TIME, min_comm]
  · norm_num [calculateResponseSpeedScore, IDEAL_RESPONSE_TIME]
  · norm_num [calculateResponseSpeedScore, IDEAL_RESPONSE_TIME, MAX_ACCEPTABLE_TIME]

/-- Witness for C6 at the concrete average 4000 ms. -/
theorem c6_witness :
    (2500 : ℚ) < 4000 ∧
    calculateResponseSpeedScore 4000 =
      max 50 (100 - min 50 (((4000 : ℚ) - 2500) / (5000 - 2500) * 50)) :=
  ⟨by norm_num, c6_response_speed_score.2.1 4000 (by norm_num)⟩

/-- C2: with `k` records present for the current phase (`k ≤ 13`), the
advancement step presents stimulus index `k` (the record count modulo the
catalog length, which equals `k`), and at `k = 13` it instead fires
`moveToNextPhase()`. -/
theorem c2_advancement_rule (phase : EyeTestingPhase) (h : List PerformanceMetric)
    (hk : countPhase phase h ≤ PlaceHolderImages.length) :
    (countPhase phase h < PlaceHolderImages.length →
      advanceToNextImage phase h =
        .nextImage (countPhase phase h % PlaceHolderImages.length) ∧
      countPhase phase h % PlaceHolderImages.length = countPhase phase h) ∧
    (countPhase phase h = PlaceHolderImages.length →
      advanceToNextImage phase h = .moveToNextPhase) := by
  constructor
  · intro hlt
    refine ⟨?_, Nat.mod_eq_of_lt hlt⟩
    rw [advanceToNextImage]
    simp only [countPhase] at hlt ⊢
    rw [if_neg (not_le.mpr hlt)]
  · intro heq
    rw [advanceToNextImage]
    simp only [countPhase] at heq
    rw [if_pos (le_of_eq heq.symm)]

/-- Witness for C2 on a concrete two-record left-eye history. -/
theorem c2_witness :
    countPhase .leftEye hist2 ≤ PlaceHolderImages.length ∧
    ((countPhase .leftEye hist2 < PlaceHolderImages.length →
      advanceToNextImage .leftEye hist2 =
        .nextImage (countPhase .leftEye hist2 % PlaceHolderImages.length) ∧
      countPhase .leftEye hist2 % PlaceHolderImages.length = countPhase .leftEye hist2) ∧
    (countPhase .leftEye hist2 = PlaceHolderImages.length →
      advanceToNextImage .leftEye hist2 = .moveToNextPhase)) :=
  ⟨by decide, c2_advancement_rule .leftEye hist2 (by decide)⟩

/-- C3: skipping the phase at index `k ≤ 13` appends exactly `13 − k` records
to the history, one per stimulus index in `[k, 13)`, each skipped, incorrect,
transcribed "Phase Skipped", with zero response time and the current phase. -/
theorem c3_skip_phase (now : ℕ) (phase : EyeTestingPhase) (k : ℕ)
    (h : List PerformanceMetric) (hk : k ≤ PlaceHolderImages.length) :
    skipPhase now phase k h = h ++ skipPhaseMetrics now phase k ∧
    (skipPhaseMetrics now phase k).length = PlaceHolderImages.length - k ∧
    (skipPhaseMetrics now phase k).map (fun m => m.imageIndex) =
      List.range' k (PlaceHolderImages.length - k) ∧
    ∀ m ∈ skipPhaseMetrics now phase k,
      m.wasSkipped = true ∧ m.isCorrect = false ∧
      m.transcribedText = "Phase Skipped" ∧ m.responseTime = some 0 ∧
      m.eyeTestingPhase = phase ∧ k ≤ m.imageIndex ∧
      m.imageIndex < PlaceHolderImages.length := by
  refine ⟨rfl, by simp [skipPhaseMetrics], ?_, ?_⟩
  · rw [skipPhaseMetrics, List.map_map]
    have : (fun m => m.imageIndex) ∘ skippedMetric now phase = id := rfl
    rw [this, List.map_id]
  · intro m hm
    obtain ⟨i, hi, rfl⟩ := List.mem_map.mp hm
    obtain ⟨j, hj, rfl⟩ := List.mem_range'.mp hi
    refine ⟨rfl, rfl, rfl, rfl, rfl, ?_, ?_⟩ <;>
      simp only [skippedMetric] <;> omega

/-- Witness for C3 at phase index 11 of the right-eye phase. -/
theorem c3_witness :
    11 ≤ PlaceHolderImages.length ∧
    (skipPhase 0 .rightEye 11 [] = [] ++ skipPhaseMetrics 0 .rightEye 11 ∧
    (skipPhaseMetrics 0 .rightEye 11).length = PlaceHolderImages.length - 11 ∧
    (skipPhaseMetrics 0 .rightEye 11).map (fun m => m.imageIndex) =
      List.range' 11 (PlaceHolderImages.length - 11) ∧
    ∀ m ∈ skipPhaseMetrics 0 .rightEye 11,
      m.wasSkipped = true ∧ m.isCorrect = false ∧
      m.transcribedText = "Phase Skipped" ∧ m.responseTime = some 0 ∧
      m.eyeTestingPhase = .rightEye ∧ 11 ≤ m.imageIndex ∧
      m.imageIndex < PlaceHolderImages.length) :=
  ⟨by decide, c3_skip_phase 0 .rightEye 11 [] (by decide)⟩

/-- C4: beginning a new capture session (or calling `cleanup`) increments the
session token, and every delayed callback — progress tick, forced-stop
timeout, recorder-stop handler — that captured an older token performs no
`onProgressUpdate` / `onRecordingComplete` invocation at all. -/
theorem c4_stale_token_noop (s : RecorderState) (token : ℕ)
    (hold : token ≤ s.sessionId) :
    (startRecordingSession s).1.sessionId = s.sessionId + 1 ∧
    (cleanup s).sessionId = s.sessionId + 1 ∧
    (∀ elapsed : ℚ, progressTickEvents token (startRecordingSession s).1 elapsed = []) ∧
    (∀ rec : Bool, (forcedStopTimeout token (startRecordingSession s).1 rec).2 = []) ∧
    (∀ n : ℕ, onstopEvents token (startRecordingSession s).1 n = []) ∧
    (∀ elapsed : ℚ, progressTickEvents token (cleanup s) elapsed = []) ∧
    (∀ rec : Bool, (forcedStopTimeout token (cleanup s) rec).2 = []) ∧
    (∀ n : ℕ, onstopEvents token (cleanup s) n = []) := by
  have hne : token ≠ s.sessionId + 1 := by omega
  refine ⟨rfl, rfl, ?_, ?_, ?_, ?_, ?_, ?_⟩ <;>
    simp [progressTickEvents, forcedStopTimeout, onstopEvents,
      startRecordingSession, cleanup, hne]

/-- Witness for C4 on a concrete controller state and stale token. -/
theorem c4_witness :
    (0 : ℕ) ≤ (RecorderState.mk 0 true).sessionId ∧
    ((startRecordingSession ⟨0, true⟩).1.sessionId = (0 : ℕ) + 1 ∧
    (cleanup ⟨0, true⟩).sessionId = (0 : ℕ) + 1 ∧
    (∀ elapsed : ℚ, progressTickEvents 0 (startRecordingSession ⟨0, true⟩).1 elapsed = []) ∧
    (∀ rec : Bool, (forcedStopTimeout 0 (startRecordingSession ⟨0, true⟩).1 rec).2 = []) ∧
    (∀ n : ℕ, onstopEvents 0 (startRecordingSession ⟨0, true⟩).1 n = []) ∧
    (∀ elapsed : ℚ, progressTickEvents 0 (cleanup ⟨0, true⟩) elapsed = []) ∧
    (∀ rec : Bool, (forcedStopTimeout 0 (cleanup ⟨0, true⟩) rec).2 = []) ∧
    (∀ n : ℕ, onstopEvents 0 (cleanup ⟨0, true⟩) n = [])) :=
  ⟨by decide, c4_stale_token_noop ⟨0, true⟩ 0 (by decide)⟩

/-- C9: when the recorder-stop handler of the active session runs with an
empty buffered sample, it invokes neither `onRecordingComplete` nor `onError`
and the controller returns to idle; with a non-empty sample it invokes
exactly `onRecordingComplete` with the buffered sample. -/
theorem c9_forced_stop_empty_blob (s : RecorderState) (token : ℕ)
    (hact : s.isActive = true) (htok : token = s.sessionId) :
    (onstopRun token s 0).1 = [] ∧
    ((onstopRun token s 0).2).isActive = false ∧
    ∀ n : ℕ, 0 < n → (onstopRun token s n).1 = [.recordingComplete n] := by
  subst htok
  refine ⟨?_, rfl, ?_⟩
  · simp [onstopRun, onstopEvents, hact]
  · intro n hn
    simp [onstopRun, onstopEvents, hact, hn]

/-- Witness for C9 on a concrete active controller state. -/
theorem c9_witness :
    ((RecorderState.mk 2 true).isActive = true ∧ (2 : ℕ) = (RecorderState.mk 2 true).sessionId) ∧
    ((onstopRun 2 ⟨2, true⟩ 0).1 = [] ∧
    ((onstopRun 2 ⟨2, true⟩ 0).2).isActive = false ∧
    ∀ n : ℕ, 0 < n → (onstopRun 2 ⟨2, true⟩ n).1 = [.recordingComplete n]) :=
  ⟨⟨rfl, rfl⟩, c9_forced_stop_empty_blob ⟨2, true⟩ 2 rfl rfl⟩

/-- C5: on a non-empty history whose records are all skipped (no completed
data), the report has `recognitionAccuracy = 0` and `responseSpeedScore = 100`
— no division by zero, and speed defaults to the ideal score. -/
theorem c5_no_completed_data (now : ℕ) (h : List PerformanceMetric)
    (hne : h ≠ []) (hall : ∀ m ∈ h, m.wasSkipped = true) :
    ∃ r, generateSalzburgReport now h = some r ∧
      r.recognitionAccuracy = 0 ∧ r.responseSpeedScore = 100 := by
  have hemp : h.isEmpty = false := by
    cases h with
    | nil => exact absurd rfl hne
    | cons a t => rfl
  have hc : (ensureAllPhasesAccountedFor now h).filter (fun m => !m.wasSkipped) = [] := by
    rw [completed_ensure]
    exact filter_not_skip_eq_nil_of_all hall
  refine ⟨buildReport now h, by simp [generateSalzburgReport, hemp], ?_, ?_⟩
  · simp only [buildReport]
    rw [hc]
    simp
  · simp only [buildReport]
    rw [hc]
    norm_num [calculateAverageResponseTime, calculateResponseSpeedScore, IDEAL_RESPONSE_TIME]

/-- Witness for C5 on the concrete all-skipped history `hist0`. -/
theorem c5_witness :
    (hist0 ≠ [] ∧ ∀ m ∈ hist0, m.wasSkipped = true) ∧
    ∃ r, generateSalzburgReport 0 hist0 = some r ∧
      r.recognitionAccuracy = 0 ∧ r.responseSpeedScore = 100 :=
  ⟨⟨by decide, by decide⟩, c5_no_completed_data 0 hist0 (by decide) (by decide)⟩

/-- C1: on a non-empty history with at most 13 records per phase, the report
backfill appends only synthesized records with `wasSkipped = true` and
transcription "Phase not completed", and the resulting report satisfies
`totalImages = 39` and `completedTests + skippedTests = 39`. -/
theorem c1_backfill (now : ℕ) (h : List PerformanceMetric) (hne : h ≠ [])
    (hcnt : ∀ p, countPhase p h ≤ ACTUAL_IMAGES_COUNT) :
    ∃ pads, ensureAllPhasesAccountedFor now h = h ++ pads ∧
      (∀ m ∈ pads, m.wasSkipped = true ∧ m.transcribedText = "Phase not completed") ∧
      ∃ r, generateSalzburgReport now h = some r ∧
        r.totalImages = 39 ∧ r.completedTests + r.skippedTests = 39 := by
  have hemp : h.isEmpty = false := by
    cases h with
    | nil => exact absurd rfl hne
    | cons a t => rfl
  refine ⟨padBlock now .leftEye (countPhase .leftEye h) ++
    (padBlock now .rightEye (countPhase .rightEye h) ++
     padBlock now .bothEyes (countPhase .bothEyes h)), ?_, ?_, ?_⟩
  · rw [ensure_eq]
    simp [List.append_assoc]
  · intro m hm
    rcases List.mem_append.mp hm with h1 | h2
    · exact ⟨(mem_padBlock h1).1, (mem_padBlock h1).2.1⟩
    · rcases List.mem_append.mp h2 with h3 | h4
      · exact ⟨(mem_padBlock h3).1, (mem_padBlock h3).2.1⟩
      · exact ⟨(mem_padBlock h4).1, (mem_padBlock h4).2.1⟩
  · refine ⟨buildReport now h, by simp [generateSalzburgReport, hemp], ?_, ?_⟩
    · simp only [buildReport]
      decide
    · simp only [buildReport]
      rw [filter_skip_partition_length, ensure_eq]
      simp only [List.length_append, length_padBlock]
      have h1 := hcnt .leftEye
      have h2 := hcnt .rightEye
      have h3 := hcnt .bothEyes
      have hlen := length_eq_sum_countPhase h
      rw [actual_images_count_eq] at h1 h2 h3 ⊢
      omega

/-- Witness for C1 on the concrete one-record history `hist1`. -/
theorem c1_witness :
    (hist1 ≠ [] ∧ ∀ p, countPhase p hist1 ≤ ACTUAL_IMAGES_COUNT) ∧
    ∃ pads, ensureAllPhasesAccountedFor 0 hist1 = hist1 ++ pads ∧
      (∀ m ∈ pads, m.wasSkipped = true ∧ m.transcribedText = "Phase not completed") ∧
      ∃ r, generateSalzburgReport 0 hist1 = some r ∧
        r.totalImages = 39 ∧ r.completedTests + r.skippedTests = 39 :=
  ⟨⟨by decide, fun p => by cases p <;> decide⟩,
   c1_backfill 0 hist1 (by decide) (fun p => by cases p <;> decide)⟩

/-- C10: a non-empty history with no skipped record but fewer than 13 records
in some phase still yields a report with the referral flag set, a positive
skipped-test count, and the two referral-consultation recommendation strings
— aborting early triggers the referral flag even though the user never
pressed skip. -/
theorem c10_early_abort_referral (now : ℕ) (h : List PerformanceMetric) (hne : h ≠ [])
    (hns : ∀ m ∈ h, m.wasSkipped = false)
    (hp : ∃ p, countPhase p h < ACTUAL_IMAGES_COUNT) :
    ∃ r, generateSalzburgReport now h = some r ∧
      r.shouldVisitOphthalmologist = true ∧ 0 < r.skippedTests ∧
      "⚠️ IMPORTANT: Tests were skipped - Recommend immediate ophthalmologist consultation"
        ∈ r.recommendations ∧
      "Skipped tests may indicate visual discomfort or difficulty" ∈ r.recommendations := by
  have hemp : h.isEmpty = false := by
    cases h with
    | nil => exact absurd rfl hne
    | cons a t => rfl
  have hskiplen :
      0 < ((ensureAllPhasesAccountedFor now h).filter (fun m => m.wasSkipped)).length := by
    rw [skipped_ensure_length, filter_skip_eq_nil_of_none hns]
    obtain ⟨p, hplt⟩ := hp
    cases p <;> simp <;> omega
  refine ⟨buildReport now h, by simp [generateSalzburgReport, hemp], ?_, ?_, ?_, ?_⟩
  · simp only [buildReport]
    exact decide_eq_true hskiplen
  · simp only [buildReport]
    exact hskiplen
  · simp only [buildReport]
    rw [decide_eq_true hskiplen]
    simp [generateRecommendations]
  · simp only [buildReport]
    rw [decide_eq_true hskiplen]
    simp [generateRecommendations]

theorem calculateEyeResults_pad (x : List PerformanceMetric) (now : ℕ)
    (p : EyeTestingPhase) (c : ℕ) :
    calculateEyeResults (x ++ padBlock now p c) =
      { correctResponses := ((x.filter fun m => !m.wasSkipped).filter fun m => m.isCorrect).length
        totalTests := ACTUAL_IMAGES_COUNT
        skipped := (x.filter fun m => m.wasSkipped).length + (ACTUAL_IMAGES_COUNT - c)
          + (ACTUAL_IMAGES_COUNT - (x.length + (ACTUAL_IMAGES_COUNT - c))) } := by
  unfold calculateEyeResults
  simp only [List.filter_append, filter_not_skip_padBlock, filter_skip_padBlock,
    List.length_append, length_padBlock, List.append_nil]

/-- `buildReport` does not depend on the timestamp placed on backfilled
records: every report field is computed from counts and response times that
ignore `startTime`. -/
theorem buildReport_now_eq (now₁ now₂ : ℕ) (h : List PerformanceMetric) :
    buildReport now₁ h = buildReport now₂ h := by
  simp only [buildReport, completed_ensure, skipped_ensure_length, phase_filter_ensure,
    calculateEyeResults_pad]

/-- C8: `generateSalzburgReport` is a pure, deterministic function of the
history — two calls on the same history (with possibly different `Date.now()`
readings for the backfilled records) return identical reports. -/
theorem c8_report_pure (now₁ now₂ : ℕ) (h : List PerformanceMetric) :
    generateSalzburgReport now₁ h = generateSalzburgReport now₂ h := by
  unfold generateSalzburgReport
  by_cases he : h.isEmpty
  · simp [he]
  · simp only [he, Bool.false_eq_true, if_false]
    rw [buildReport_now_eq now₁ now₂ h]

/-- Witness for C10 on the concrete skip-free one-record history `hist1`. -/
theorem c10_witness :
    (hist1 ≠ [] ∧ (∀ m ∈ hist1, m.wasSkipped = false) ∧
      countPhase .rightEye hist1 < ACTUAL_IMAGES_COUNT) ∧
    ∃ r, generateSalzburgReport 0 hist1 = some r ∧
      r.shouldVisitOphthalmologist = true ∧ 0 < r.skippedTests ∧
      "⚠️ IMPORTANT: Tests were skipped - Recommend immediate ophthalmologist consultation"
        ∈ r.recommendations ∧
      "Skipped tests may indicate visual discomfort or difficulty" ∈ r.recommendations :=
  ⟨⟨by decide, by decide, by decide⟩,
   c10_early_abort_referral 0 hist1 (by decide) (by decide) ⟨.rightEye, by decide⟩⟩

theorem calculateVariance_eq_popVariance (cm : List PerformanceMetric) :
    calculateVariance cm (calculateAverageResponseTime cm) =
      popVariance (cm.map fun m => m.responseTime.getD 0) := by
  cases cm with
  | nil => rfl
  | cons a t =>
    have h1 : (a :: t).isEmpty = false := rfl
    have h2 : ((a :: t).map fun m => m.responseTime.getD 0).isEmpty = false := rfl
    unfold calculateVariance calculateAverageResponseTime popVariance
    rw [h1, h2]
    simp only [Bool.false_eq_true, if_false]
    rw [List.map_map, List.length_map]
    rfl

/-- C7 counterexample: on the concrete all-skipped history `hist0` the
completed set is empty, the source's consistency pair is `(stdDev, score) =
(0, 0)`, and the claimed equation `score = max(0, 100 − stdDev/100)` fails
(it would force the score to be 100). -/
theorem c7_counterexample :
    hist0 ≠ [] ∧
    generateSalzburgReport 0 hist0 = some (buildReport 0 hist0) ∧
    (buildReport 0 hist0).completedTests = 0 ∧
    ReportConsistency (buildReport 0 hist0) 0 0 ∧
    ¬ ((0 : ℝ) = max 0 (100 - (0 : ℝ) / 100)) := by
  have hct : (buildReport 0 hist0).completedTests = 0 := by
    simp only [buildReport]
    rw [completed_ensure]
    decide
  refine ⟨by decide, rfl, hct, ?_, by norm_num⟩
  unfold ReportConsistency
  rw [if_pos hct]
  exact ⟨rfl, rfl⟩

/-- C7 (amended): on a non-empty history, whenever the completed set is
non-empty the report's standard deviation is the population standard
deviation of the completed response times around their mean and
`consistencyScore = max(0, 100 − stdDev/100)`; when the completed set is
empty the source instead returns `stdDev = 0` and `consistencyScore = 0`
(not 100, so the equation does not extend to this case). -/
theorem c7_amended_consistency (now : ℕ) (h : List PerformanceMetric) (hne : h ≠ [])
    (r : SalzburgReport) (hr : generateSalzburgReport now h = some r)
    (sd cs : ℝ) (hrc : ReportConsistency r sd cs) :
    (r.completedTests ≠ 0 →
      sd = Real.sqrt ((popVariance ((h.filter fun m => !m.wasSkipped).map
        fun m => m.responseTime.getD 0) : ℚ) : ℝ) ∧
      cs = max 0 (100 - sd / 100)) ∧
    (r.completedTests = 0 → sd = 0 ∧ cs = 0) := by
  have hemp : h.isEmpty = false := by
    cases h with
    | nil => exact absurd rfl hne
    | cons a t => rfl
  have hrb : r = buildReport now h := by
    rw [generateSalzburgReport, hemp] at hr
    simp only [Bool.false_eq_true, if_false, Option.some.injEq] at hr
    exact hr.symm
  subst hrb
  constructor
  · intro hnz
    have hv : (buildReport now h).variance =
        popVariance ((h.filter fun m => !m.wasSkipped).map fun m => m.responseTime.getD 0) := by
      simp only [buildReport]
      rw [completed_ensure]
      exact calculateVariance_eq_popVariance _
    unfold ReportConsistency at hrc
    rw [if_neg hnz] at hrc
    obtain ⟨hsd, hcs⟩ := hrc
    exact ⟨by rw [hsd, hv], hcs⟩
  · intro hz
    unfold ReportConsistency at hrc
    rw [if_pos hz] at hrc
    exact hrc

/-- Witness for the amended C7 on the concrete one-completed-record history
`hist1`. -/
theorem c7_witness :
    (hist1 ≠ [] ∧ generateSalzburgReport 0 hist1 = some (buildReport 0 hist1) ∧
      ReportConsistency (buildReport 0 hist1)
        (Real.sqrt ((buildReport 0 hist1).variance : ℝ))
        (max 0 (100 - Real.sqrt ((buildReport 0 hist1).variance : ℝ) / 100))) ∧
    (((buildReport 0 hist1).completedTests ≠ 0 →
      Real.sqrt ((buildReport 0 hist1).variance : ℝ) =
        Real.sqrt ((popVariance ((hist1.filter fun m => !m.wasSkipped).map
          fun m => m.responseTime.getD 0) : ℚ) : ℝ) ∧
      max 0 (100 - Real.sqrt ((buildReport 0 hist1).variance : ℝ) / 100) =
        max 0 (100 - Real.sqrt ((buildReport 0 hist1).variance : ℝ) / 100)) ∧
    ((buildReport 0 hist1).completedTests = 0 →
      Real.sqrt ((buildReport 0 hist1).variance : ℝ) = 0 ∧
      max 0 (100 - Real.sqrt ((buildReport 0 hist1).variance : ℝ) / 100) = 0)) := by
  have hct : (buildReport 0 hist1).completedTests ≠ 0 := by
    simp only [buildReport]
    rw [completed_ensure]
    decide
  have hrc : ReportConsistency (buildReport 0 hist1)
      (Real.sqrt ((buildReport 0 hist1).variance : ℝ))
      (max 0 (100 - Real.sqrt ((buildReport 0 hist1).variance : ℝ) / 100)) := by
    unfold ReportConsistency
    rw [if_neg hct]
    exact ⟨rfl, rfl⟩
  exact ⟨⟨by decide, rfl, hrc⟩,
    c7_amended_consistency 0 hist1 (by decide) (buildReport 0 hist1) rfl _ _ hrc⟩

end Moorfields
